import Mathlib

/-!
Shallow embedding of the citation expansion and parallel-resolution engine
of `dynamic-citations.js` (the uslaw.link core).

The data model and every operation below are translated directly from the
source file.  The external `./citation` module (the Identity & Link Registry)
is not part of the source tree; the few pieces of it that the core calls
(`Citation.types[t].id`, `.name`, `.canonical`, `Citation.getLinksForCitation`)
are modelled from the spec and marked as such.

Network and file-system effects are made explicit: a `World` record carries
the outcome of every external interaction (the per-volume ledger files, the
parsed MODS documents, HTTP status codes, parsed JSON responses), with
`Option.none` standing for a failed fetch / missing file / unparsable body.
JavaScript code that would throw an uncaught exception (e.g. dereferencing an
`undefined` response object) is modelled as `Except.error`.
-/

namespace UslawLink

/-- Modelled from the spec: the external Identity Registry computes a stable
identifier from a citation's type and its defining fields, used to detect
duplicate references.  The registry itself (`./citation`) is outside the
source tree, so the identifier is modelled as a structured value that is
injective in the defining fields, which is all the spec requires of it. -/
inductive CiteId where
  | stat (volume page : Nat)
  | law (congress : Nat) (ltype : String) (number : Nat)
  | us_bill (congress : Nat) (bill_type : String) (number : Nat)
deriving DecidableEq, Repr

/-- Source descriptor of an external link (`{name, abbreviation, link, authoritative, note?}`). -/
structure Source where
  name : String
  abbreviation : String
  link : String
  authoritative : Bool
  note : Option String := none
deriving DecidableEq, Repr

/-- One named link on a citation: `{source, landing?, pdf?, mods?, html?}`. -/
structure LinkDescriptor where
  source : Source
  landing : Option String := none
  pdf : Option String := none
  mods : Option String := none
  html : Option String := none
deriving DecidableEq, Repr

/-- The link map of a sub-citation, keyed by source name.  Only the source
keys that `dynamic-citations.js` ever reads or writes are modelled. -/
structure Links where
  usgpo : Option LinkDescriptor := none
  govtrack : Option LinkDescriptor := none
  house : Option LinkDescriptor := none
  courtlistener : Option LinkDescriptor := none
  legisworks : Option LinkDescriptor := none
deriving DecidableEq, Repr

/-- The `stat` sub-citation: a Statutes-at-Large volume/page reference. -/
structure StatCite where
  volume : Nat
  page : Nat
  id : CiteId := CiteId.stat 0 0
  links : Links := {}
deriving DecidableEq, Repr

/-- The `law` sub-citation: a public/private law reference. -/
structure LawCite where
  congress : Nat
  type : String
  number : Nat
  id : CiteId := CiteId.law 0 "" 0
  links : Links := {}
deriving DecidableEq, Repr

/-- The `us_bill` sub-citation. -/
structure UsBillCite where
  is_enacted : Bool := false
  congress : Nat
  bill_type : String
  number : Nat
  title : Option String := none
  id : CiteId := CiteId.us_bill 0 "" 0
  links : Links := {}
deriving DecidableEq, Repr

/-- The `usc` sub-citation.  Its `links` property can be deleted wholesale by
the section-existence validator (`delete cite.usc.links`), hence the `Option`. -/
structure UscCite where
  links : Option Links := none
deriving DecidableEq, Repr

/-- The `cfr` sub-citation. -/
structure CfrCite where
  links : Links := {}
deriving DecidableEq, Repr

/-- The `fedreg` sub-citation. -/
structure FedregCite where
  links : Links := {}
deriving DecidableEq, Repr

/-- The `reporter` (case reporter) sub-citation. -/
structure ReporterCite where
  links : Links := {}
deriving DecidableEq, Repr

/-- A citation as produced by `create_parallel_cite`: the common fields plus
the sub-citation stored under its own type key.  Such citations never carry
`parallel_citations` of their own, so they are the base (non-recursive) layer
of the citation data model. -/
structure CiteBase where
  type : String
  type_name : Option String := none
  citation : Option String := none
  title : Option String := none
  stat : Option StatCite := none
  law : Option LawCite := none
  us_bill : Option UsBillCite := none
deriving DecidableEq, Repr

/-- A full citation record: the tagged record handed to `explode` /
`add_parallel_citations`, with one optional sub-citation per type key and an
optional one-level list of parallel citations. -/
structure Cite where
  type : String
  type_name : Option String := none
  citation : Option String := none
  title : Option String := none
  disambiguation : Option String := none
  parallel_citations : List CiteBase := []
  stat : Option StatCite := none
  law : Option LawCite := none
  usc : Option UscCite := none
  cfr : Option CfrCite := none
  fedreg : Option FedregCite := none
  reporter : Option ReporterCite := none
  us_bill : Option UsBillCite := none
deriving DecidableEq, Repr

/-- Lift a resolver-created citation to a full top-level citation record. -/
def CiteBase.toCite (c : CiteBase) : Cite :=
  { type := c.type, type_name := c.type_name, citation := c.citation,
    title := c.title, stat := c.stat, law := c.law, us_bill := c.us_bill }

/-- One row of the Legisworks historical-statute ledger. -/
structure LedgerEntry where
  volume : Nat
  page : Nat
  npages : Option Nat := none
  type : String := ""
  congress : Nat := 0
  number : Nat := 0
  title : Option String := none
  topic : Option String := none
  file : String := ""
  citation : String := ""
deriving DecidableEq, Repr

/-- JavaScript `a || b` on optional strings: the empty string and `undefined`
are falsy, anything else short-circuits (used for `item.title || item.topic`). -/
def jsOrS : Option String → Option String → Option String
  | some s, b => if s = "" then b else some s
  | none, b => b

/-- Modelled from the spec: `Citation.getLinksForCitation` belongs to the
external Identity & Link Registry ("a mapping of named external links").  Its
per-type link templates are unspecified by the spec and no claim depends on
their contents, so the template map is modelled as empty. -/
def getLinksForCitation (_type : String) (_id : CiteId) : Links := {}

/-- Counterpart of `create_parallel_cite('stat', {volume, page})`.  The
registry-provided `name` and `canonical` of the `stat` citator are modelled
from the spec (the registry is external); the canonical string is modelled as
absent because every caller in the source overwrites `citation` anyway. -/
def create_parallel_cite_stat (volume page : Nat) : CiteBase :=
  { type := "stat",
    type_name := some "United States Statutes at Large",
    citation := none,
    title := none,
    stat := some { volume := volume, page := page, id := CiteId.stat volume page,
                   links := getLinksForCitation "stat" (CiteId.stat volume page) } }

/-- Counterpart of `create_parallel_cite('law', {congress, type, number})`. -/
def create_parallel_cite_law (congress : Nat) (ltype : String) (number : Nat) : CiteBase :=
  { type := "law",
    type_name := some "Public/Private Law",
    citation := none,
    title := none,
    law := some { congress := congress, type := ltype, number := number,
                  id := CiteId.law congress ltype number,
                  links := getLinksForCitation "law" (CiteId.law congress ltype number) } }

/-- Counterpart of `create_parallel_cite('us_bill', {...})`. -/
def create_parallel_cite_us_bill (is_enacted : Bool) (congress : Nat)
    (bill_type : String) (number : Nat) (title : Option String) : CiteBase :=
  { type := "us_bill",
    type_name := some "United States Bill",
    citation := none,
    title := title,
    us_bill := some { is_enacted := is_enacted, congress := congress,
                      bill_type := bill_type, number := number, title := title,
                      id := CiteId.us_bill congress bill_type number,
                      links := getLinksForCitation "us_bill" (CiteId.us_bill congress bill_type number) } }

/-! ## External world

Outcomes of network and file-system interactions, made explicit. -/

/-- A structured reference to a parallel law inside a MODS extension block. -/
structure ModsLawRef where
  congress : Nat
  isPrivate : Bool
  number : Nat
deriving DecidableEq, Repr

/-- A structured reference to an originating bill inside a MODS extension block. -/
structure ModsBillRef where
  congress : Nat
  type : String
  number : Nat
  priority : String
deriving DecidableEq, Repr

/-- The parsed `shortTitle` element: xml2js yields either a plain string or
an object whose text (if any) sits under the `_` key. -/
inductive ShortTitleElem where
  | str (s : String)
  | obj (text : Option String)
deriving DecidableEq, Repr

/-- One `extension` block of a parsed MODS metadata document. -/
structure ModsExtension where
  law : Option ModsLawRef := none
  bill : Option ModsBillRef := none
  shortTitle : Option ShortTitleElem := none
  searchTitle : Option String := none
deriving DecidableEq, Repr

/-- One result row of a CourtListener search response. -/
structure CLCase where
  caseName : String
  court : String
  citation : List String
  absolute_url : String
deriving DecidableEq, Repr

/-- The parsed GovTrack bill API record. -/
structure BillRecord where
  congress : Nat
  number : Nat
  title : String
  title_without_number : String
deriving DecidableEq, Repr

/-- CourtListener credentials from the environment/configuration record. -/
structure CLCredentials where
  username : String
  password : String
deriving DecidableEq, Repr

/-- The environment/configuration record passed alongside each citation. -/
structure Env where
  courtlistener : Option CLCredentials := none

/-- Outcomes of every external interaction one enrichment pass can perform.
`none` models a missing file, a transport failure, or an unparsable body. -/
structure World where
  /-- Per-volume Legisworks ledger files; `none` models a missing file
  (`fs.readFileSync` throws). -/
  ledger : Nat → Option (List LedgerEntry) := fun _ => none
  /-- Parsed MODS documents by URL; `none` models a fetch or parse failure
  (including a missing `result.mods.extension`). -/
  mods : String → Option (List ModsExtension) := fun _ => none
  /-- Status code of the OLRC existence check; `none` models a network error,
  in which case node-request passes no `response` object at all. -/
  usc_status : Option Nat := none
  /-- Parsed `results` of a CourtListener search; `none` models a transport
  error or unparsable body. -/
  cl_response : Option (List CLCase) := none
  /-- Final URL of the GovTrack search redirect, pre-matched against the bill
  address pattern: outer `none` is a network error (no `response` object),
  inner `none` a final URL that is not a bill page, otherwise the captured
  `(congress, bill_type, number)`. -/
  govtrack_final : Option (Option (Nat × String × Nat)) := none
  /-- Parsed GovTrack bill JSON; `none` models JSON.parse throwing. -/
  govtrack_bill : Option BillRecord := none

/-! ## Ledger Lookup and Expansion Orchestrator (`explode` / `get_from_legisworks`) -/

/-- The entry filter inside `get_from_legisworks`: keep `item` when
`item.volume == volume` and the queried page is the entry's start page or,
when `npages` is present (and nonzero, since `0` is falsy in JavaScript),
lies inside `[item.page, item.page + item.npages)`. -/
def ledger_match (volume page : Nat) (item : LedgerEntry) : Bool :=
  decide (item.volume = volume) &&
    (decide (item.page = page) ||
      match item.npages with
      | some np => decide (np ≠ 0) && decide (item.page ≤ page) && decide (page < item.page + np)
      | none => false)

/-- The matching entries of a ledger, in ledger order. -/
def ledger_matches (volume page : Nat) (body : List LedgerEntry) : List LedgerEntry :=
  body.filter (ledger_match volume page)

/-- The Legisworks link object attached to a candidate, with the
internal-page note when the queried page is not the entry's start page. -/
def legisworks_source (is_start_page : Bool) (item : LedgerEntry) : LinkDescriptor :=
  { source := { name := "Legisworks",
                abbreviation := "Legisworks",
                link := "https://github.com/unitedstates/legisworks-historical-statutes",
                authoritative := false,
                note := if is_start_page then none
                        else some ("Link is to an internal page within a statute beginning on page "
                                   ++ toString item.page ++ ".") },
    pdf := some ("https://govtrackus.s3.amazonaws.com/legislink/pdf/stat/"
                 ++ toString item.volume ++ "/" ++ item.file) }

/-- The candidate citation `get_from_legisworks` builds from one matching
ledger entry (`matches.map(...)` body); `nmatches` is `matches.length`. -/
def legisworks_candidate (volume page nmatches : Nat) (item : LedgerEntry) : Cite :=
  let base := create_parallel_cite_stat volume page
  let stat0 := base.stat.getD { volume := volume, page := page }
  { type := base.type,
    type_name := base.type_name,
    citation := some (toString item.volume ++ " Stat. " ++ toString item.page),
    title := jsOrS item.title item.topic,
    disambiguation := if nmatches > 1 then some item.citation else none,
    parallel_citations :=
      if 38 ≤ item.congress ∧ item.type = "publaw" then
        [{ create_parallel_cite_law item.congress "public" item.number with
           title := jsOrS item.title item.topic }]
      else [],
    stat := some { stat0 with
                   links := { stat0.links with
                              legisworks := some (legisworks_source (item.page == page) item) } } }

/-- The candidate list `get_from_legisworks` builds from one loaded ledger:
one candidate per matching entry, handed back in reverse ledger order
(`matches.reverse()` in the source). -/
def explode_candidates (volume page : Nat) (body : List LedgerEntry) : List Cite :=
  ((ledger_matches volume page body).map
    (legisworks_candidate volume page (ledger_matches volume page body).length)).reverse

/-- `get_from_legisworks`: load the per-volume ledger file, filter the
matching entries, build one candidate per match, and return them reversed.
A missing ledger file is the `fs.readFileSync` throw (`DataNotFound`). -/
def get_from_legisworks (cite : Cite) (w : World) : Except String (List Cite) :=
  match cite.stat with
  | none => Except.error "TypeError: no stat sub-citation"
  | some s =>
    match w.ledger s.volume with
    | none => Except.error "DataNotFound"
    | some body => Except.ok (explode_candidates s.volume s.page body)

/-- `exports.explode`: Statutes-at-Large citations of volume ≤ 64 are
expanded through the Legisworks ledger; every other citation is returned
unchanged as a single-element list. -/
def explode (cite : Cite) (w : World) : Except String (List Cite) :=
  match cite.stat with
  | some s => if s.volume ≤ 64 then get_from_legisworks cite w else Except.ok [cite]
  | none => Except.ok [cite]

/-! ## Metadata-document resolver (`get_from_usgpo_mods`) -/

/-- Accumulator of the `result.mods.extension.forEach` loop: the collected
new citations, the identities recorded in `seen_cites`, and the current value
of the parent citation's `title` field. -/
structure UsgpoState where
  cites : List CiteBase
  seen : List CiteId
  title : Option String
deriving DecidableEq, Repr

/-- The identity the resolver computes for a MODS law reference. -/
def mods_law_id (l : ModsLawRef) : CiteId :=
  CiteId.law l.congress (if l.isPrivate then "private" else "public") l.number

/-- The title-extraction tail of one extension block: a `shortTitle` element
(plain string, or object with a `_` text key) wins over `searchTitle`; an
unusable `shortTitle` element suppresses the `searchTitle` fallback
(`if/else if` in the source). -/
def mods_title_update (ext : ModsExtension) (title : Option String) : Option String :=
  match ext.shortTitle with
  | some (ShortTitleElem.str s) => some s
  | some (ShortTitleElem.obj (some s)) => some s
  | some (ShortTitleElem.obj none) => title
  | none =>
    match ext.searchTitle with
    | some s => some s
    | none => title

/-- The bill-reference and title part of one extension block: a `bill`
element with `priority == "primary"` becomes a `us_bill` parallel citation
unless its identity was already seen, in which case the `return` aborts the
whole block (title included). -/
def process_bill_and_title (s : UsgpoState) (ext : ModsExtension) : UsgpoState :=
  match ext.bill with
  | some b =>
    if b.priority = "primary" then
      let btype := b.type.toLower
      let bid := CiteId.us_bill b.congress btype b.number
      if bid ∈ s.seen then s
      else
        let c := create_parallel_cite_us_bill true b.congress btype b.number none
        { cites := s.cites ++ [c], seen := bid :: s.seen,
          title := mods_title_update ext s.title }
    else { s with title := mods_title_update ext s.title }
  | none => { s with title := mods_title_update ext s.title }

/-- Processing of one MODS extension block.  For `stat`/`law` parent
citations a `law` element becomes a `law` parallel citation; a duplicate
identity makes the callback `return`, abandoning the rest of the block. -/
def process_extension (ctype : String) (s : UsgpoState) (ext : ModsExtension) : UsgpoState :=
  if ctype = "stat" ∨ ctype = "law" then
    match ext.law with
    | some l =>
      let lid := mods_law_id l
      if lid ∈ s.seen then s
      else
        let c := create_parallel_cite_law l.congress
                   (if l.isPrivate then "private" else "public") l.number
        process_bill_and_title
          { cites := s.cites ++ [c], seen := lid :: s.seen, title := s.title } ext
    | none => process_bill_and_title s ext
  else { s with title := mods_title_update ext s.title }

/-- `get_from_usgpo_mods`: fetch and parse the MODS document (`none` models
any fetch/parse failure or a document without `mods.extension`, all of which
leave the citation untouched and contribute no new citations), then fold the
extension blocks. -/
def get_from_usgpo_mods (cite : Cite) (modsDoc : Option (List ModsExtension)) :
    List CiteBase × Cite :=
  match modsDoc with
  | none => ([], cite)
  | some exts =>
    let s := exts.foldl (process_extension cite.type)
               { cites := [], seen := [], title := cite.title }
    (s.cites, { cite with title := s.title })

/-! ## Ledger cross-reference resolver (`get_from_legisworks_publaw`) -/

/-- The congress-to-volume table, exactly as the source writes it down; the
key `75` appears twice. -/
def volume_map_entries : List (Nat × List Nat) :=
  [(60, [35]), (61, [36]), (62, [37]), (63, [38]), (64, [39]), (65, [40]),
   (66, [41]), (67, [42]), (68, [43]), (69, [44]), (70, [45]), (71, [46]),
   (72, [47]), (73, [48]), (74, [49]), (75, [50]), (75, [51, 52]),
   (76, [53, 54]), (77, [55, 56]), (78, [57, 58]), (79, [59, 60]),
   (80, [61, 62]), (81, [63, 64])]

/-- The `volume_map` object under JavaScript object-literal semantics: a
later duplicate key silently overwrites an earlier one, so lookup finds the
last binding. -/
def volume_map (congress : Nat) : Option (List Nat) :=
  volume_map_entries.reverse.lookup congress

/-- The per-entry filter of `get_from_legisworks_publaw`: congress and number
must agree; a `public` law requires entry type `publaw`; `private` laws are
never matched. -/
def publaw_entry_match (law : LawCite) (item : LedgerEntry) : Bool :=
  decide (item.congress = law.congress) && decide (item.number = law.number) &&
    !(decide (law.type = "public") && decide (item.type ≠ "publaw")) &&
    decide (law.type ≠ "private")

/-- What one matching ledger entry does inside `get_from_legisworks_publaw`:
overwrite the citation's title, overwrite the law sub-citation's Legisworks
link, and append a parallel `stat` citation (carrying no link of its own). -/
def publaw_apply (acc : List CiteBase × Cite) (item : LedgerEntry) : List CiteBase × Cite :=
  let cite := acc.2
  let cite := { cite with
                title := jsOrS item.title item.topic,
                law := cite.law.map (fun law =>
                  { law with links := { law.links with
                                        legisworks := some (legisworks_source true item) } }) }
  (acc.1 ++ [create_parallel_cite_stat item.volume item.page], cite)

/-- One volume's worth of work in `get_from_legisworks_publaw`: read the
ledger file (a missing file is the `fs.readFileSync` throw) and fold the
matching entries into the accumulator. -/
def publaw_volume_step (law : LawCite) (w : World) (acc : List CiteBase × Cite)
    (volume : Nat) : Except String (List CiteBase × Cite) :=
  match w.ledger volume with
  | none => Except.error "DataNotFound"
  | some body =>
    Except.ok (body.foldl (fun acc item =>
      if publaw_entry_match law item then publaw_apply acc item else acc) acc)

/-- `get_from_legisworks_publaw`: map the congress to its historical
volume(s), scan each volume's ledger for the law, and emit one parallel
`stat` citation per hit. -/
def get_from_legisworks_publaw (cite : Cite) (w : World) :
    Except String (List CiteBase × Cite) :=
  match cite.law with
  | none => Except.error "TypeError: no law sub-citation"
  | some law =>
    match volume_map law.congress with
    | none => Except.ok ([], cite)
    | some volumes =>
      volumes.foldlM (publaw_volume_step law w) (([] : List CiteBase), cite)

/-! ## Landing-page resolver (`get_from_govtrack_search`) -/

/-- `get_from_govtrack_search`: follow the GovTrack search link; when the
final URL matches the bill address pattern, fetch the bill JSON, overwrite
the parent's title, emit a parallel bill citation, and delete the now
redundant govtrack link.  A network error on the first request leaves node
with no `response` object, so `response.request.uri.href` throws. -/
def get_from_govtrack_search (cite : Cite) (is_enacted : Bool) (w : World) :
    Except String (List CiteBase × Cite) :=
  match w.govtrack_final with
  | none => Except.error "TypeError: no response object"
  | some none => Except.ok ([], cite)
  | some (some (_, bill_type, _)) =>
    match w.govtrack_bill with
    | none => Except.ok ([], cite)
    | some bill =>
      let cite := { cite with
                    title := some bill.title_without_number,
                    law := cite.law.map (fun law =>
                      { law with links := { law.links with govtrack := none } }) }
      Except.ok ([create_parallel_cite_us_bill is_enacted bill.congress bill_type
                    bill.number (some bill.title)], cite)

/-! ## Case-search resolver (`get_from_courtlistener_search`) -/

/-- The direct landing link replacing the CourtListener search link after a
unique match. -/
def cl_landing_link (c : CLCase) : LinkDescriptor :=
  { source := { name := "Court Listener",
                abbreviation := "CL",
                link := "https://www.courtlistener.com",
                authoritative := false },
    landing := some ("https://www.courtlistener.com" ++ c.absolute_url) }

/-- `get_from_courtlistener_search`: with a CourtListener link and configured
credentials, run the search; exactly one result overwrites title, type name
and canonical citation string and swaps the search link for a landing link;
zero results, several results, or any transport/parse failure (`none`) leave
the citation untouched.  New citations are never produced. -/
def get_from_courtlistener_search (cite : Cite) (env : Env) (w : World) :
    List CiteBase × Cite :=
  match cite.reporter with
  | none => ([], cite)
  | some r =>
    match r.links.courtlistener, env.courtlistener with
    | some _, some _ =>
      (match w.cl_response with
       | none => ([], cite)
       | some [c] =>
         ([], { cite with
                title := some c.caseName,
                type_name := some c.court,
                citation := c.citation.head?,
                reporter := some { r with
                                   links := { r.links with
                                              courtlistener := some (cl_landing_link c) } } })
       | some _ => ([], cite))
    | _, _ => ([], cite)

/-! ## The `fetchers` table and the Parallel-Citation Orchestrator -/

/-- `fetchers.stat`: with a GPO link, consult the MODS metadata document. -/
def fetchers_stat (stat : StatCite) (cite : Cite) (w : World) : List CiteBase × Cite :=
  match stat.links.usgpo with
  | some ld => get_from_usgpo_mods cite (w.mods (ld.mods.getD ""))
  | none => ([], cite)

/-- `fetchers.law`: GPO MODS first, then the historical congress range
60–81 through the Legisworks ledger, then the GovTrack landing link. -/
def fetchers_law (law : LawCite) (cite : Cite) (w : World) :
    Except String (List CiteBase × Cite) :=
  match law.links.usgpo with
  | some ld => Except.ok (get_from_usgpo_mods cite (w.mods (ld.mods.getD "")))
  | none =>
    if 60 ≤ law.congress ∧ law.congress ≤ 81 then
      get_from_legisworks_publaw cite w
    else
      match law.links.govtrack with
      | some gt =>
        match gt.landing with
        | some _ => get_from_govtrack_search cite true w
        | none => Except.ok ([], cite)
      | none => Except.ok ([], cite)

/-- `fetchers.usc`, the section-existence validator: with a House OLRC html
link, ping it without following redirects; a non-200 status deletes the
`usc` links.  On a network error node-request passes no `response` object,
and `response.statusCode` throws an uncaught `TypeError`. -/
def fetchers_usc (usc : UscCite) (cite : Cite) (w : World) :
    Except String (List CiteBase × Cite) :=
  match usc.links with
  | some links =>
    match links.house with
    | some house =>
      match house.html with
      | some _ =>
        (match w.usc_status with
         | none => Except.error "TypeError: cannot read statusCode of undefined"
         | some status =>
           if status ≠ 200 then
             Except.ok ([], { cite with usc := cite.usc.map (fun u => { u with links := none }) })
           else Except.ok ([], cite))
      | none => Except.ok ([], cite)
    | none => Except.ok ([], cite)
  | none => Except.ok ([], cite)

/-- `fetchers.cfr` / `fetchers.fedreg`: with a GPO link, consult the MODS
metadata document. -/
def fetchers_mods_only (links : Links) (cite : Cite) (w : World) : List CiteBase × Cite :=
  match links.usgpo with
  | some ld => get_from_usgpo_mods cite (w.mods (ld.mods.getD ""))
  | none => ([], cite)

/-- Orchestrator step for the `stat` key: skipped (no-op) when the citation
has no `stat` sub-citation. -/
def apc_stat (cite : Cite) (w : World) : List CiteBase × Cite :=
  match cite.stat with
  | some stat => fetchers_stat stat cite w
  | none => ([], cite)

/-- Orchestrator step for the `law` key. -/
def apc_law (cite : Cite) (w : World) : Except String (List CiteBase × Cite) :=
  match cite.law with
  | some law => fetchers_law law cite w
  | none => Except.ok ([], cite)

/-- Orchestrator step for the `usc` key. -/
def apc_usc (cite : Cite) (w : World) : Except String (List CiteBase × Cite) :=
  match cite.usc with
  | some usc => fetchers_usc usc cite w
  | none => Except.ok ([], cite)

/-- Orchestrator step for the `cfr` key. -/
def apc_cfr (cite : Cite) (w : World) : List CiteBase × Cite :=
  match cite.cfr with
  | some cfr => fetchers_mods_only cfr.links cite w
  | none => ([], cite)

/-- Orchestrator step for the `fedreg` key. -/
def apc_fedreg (cite : Cite) (w : World) : List CiteBase × Cite :=
  match cite.fedreg with
  | some fedreg => fetchers_mods_only fedreg.links cite w
  | none => ([], cite)

/-- Orchestrator step for the `reporter` key. -/
def apc_reporter (cite : Cite) (env : Env) (w : World) : List CiteBase × Cite :=
  match cite.reporter with
  | some _ => get_from_courtlistener_search cite env w
  | none => ([], cite)

/-- `exports.add_parallel_citations`: run each fetcher whose sub-type key is
present on the citation (absent keys are skipped) and concatenate the new
citations they hand back.  Fetchers are sequenced in the table's key order;
the source runs them through `async.forEachOf`, but every fetcher writes only
its own sub-type's fields, so the sequential composition is faithful. -/
def add_parallel_citations (cite : Cite) (env : Env) (w : World) :
    Except String (List Cite × Cite) := do
  let (n1, cite) := apc_stat cite w
  let (n2, cite) ← apc_law cite w
  let (n3, cite) ← apc_usc cite w
  let (n4, cite) := apc_cfr cite w
  let (n5, cite) := apc_fedreg cite w
  let (n6, cite) := apc_reporter cite env w
  Except.ok ((n1 ++ n2 ++ n3 ++ n4 ++ n5 ++ n6).map CiteBase.toCite, cite)

/-! ## Resolved citations

Predicates formalizing the spec's notion of an "already-fully-resolved"
citation, used for the idempotence property. -/

/-- One link descriptor of a fully resolved citation: its source is
authoritative and it carries no search/landing address. -/
def descr_resolved (d : Option LinkDescriptor) : Bool :=
  match d with
  | none => true
  | some ld => ld.source.authoritative && ld.landing.isNone

/-- A fully resolved link map in the sense of the spec: no structured-metadata
(GPO MODS) link left to fetch, no CourtListener search link left, and every
remaining link authoritative with no landing address. -/
def links_resolved (l : Links) : Bool :=
  l.usgpo.isNone && descr_resolved l.govtrack && descr_resolved l.house &&
    l.courtlistener.isNone && descr_resolved l.legisworks

/-- A fully resolved citation: every present sub-citation's link map is
resolved.  This renders the claim's hypothesis "all links authoritative, no
search or landing links remaining, no structured-metadata link to fetch". -/
def fully_resolved (cite : Cite) : Bool :=
  cite.stat.all (fun s => links_resolved s.links) &&
  cite.law.all (fun s => links_resolved s.links) &&
  cite.usc.all (fun u => u.links.all links_resolved) &&
  cite.cfr.all (fun s => links_resolved s.links) &&
  cite.fedreg.all (fun s => links_resolved s.links) &&
  cite.reporter.all (fun s => links_resolved s.links) &&
  cite.us_bill.all (fun s => links_resolved s.links)

/-- The condition under which the `law` fetcher consults the historical
ledger regardless of the citation's links: congress between 60 and 81. -/
def law_range_trigger (cite : Cite) : Bool :=
  match cite.law with
  | some law => decide (60 ≤ law.congress) && decide (law.congress ≤ 81)
  | none => false

/-- The condition under which the `usc` fetcher pings the House OLRC link:
a `house` link descriptor carrying an `html` address. -/
def usc_house_trigger (cite : Cite) : Bool :=
  match cite.usc with
  | some u =>
    match u.links with
    | some l =>
      match l.house with
      | some h => h.html.isSome
      | none => false
    | none => false
  | none => false

/-! ## Theorems -/

/-- Every ledger entry selected by the `get_from_legisworks` filter has a
start page at or before the queried page. -/
theorem ledger_match_page_le {volume page : Nat} {e : LedgerEntry}
    (h : ledger_match volume page e = true) : e.page ≤ page := by
  cases hnp : e.npages with
  | none =>
    simp [ledger_match, hnp, Bool.and_eq_true, Bool.or_eq_true, decide_eq_true_eq] at h
    omega
  | some np =>
    simp [ledger_match, hnp, Bool.and_eq_true, Bool.or_eq_true, decide_eq_true_eq] at h
    omega

/-- Claim C1 (counterexample): a volume-43 statute citation whose ledger
volume exists but matches no entry.  `explode` returns the empty list, not
the original citation as a single-element list. -/
def c1_cex_cite : Cite := { type := "stat", stat := some { volume := 43, page := 7 } }

/-- World for the C1 counterexample: volume 43's ledger file exists and is
empty, so no entry satisfies the page/span match. -/
def c1_cex_world : World := { ledger := fun v => if v = 43 then some [] else none }

/-- Claim C1 is false on the code: with volume ≤ 64 and no matching ledger
entry, `explode` succeeds with the empty candidate list, which is not the
single-element list holding the original citation. -/
theorem c1_counterexample :
    (explode c1_cex_cite c1_cex_world).toOption = some [] ∧
    (explode c1_cex_cite c1_cex_world).toOption ≠ some [c1_cex_cite] := by
  constructor <;> decide

/-- Claim C1 (amended): for a statute citation of volume ≤ 64 whose ledger
volume file is present but matches no entry, `explode` returns the empty
list (the citation is dropped, not passed through). -/
theorem c1_no_match_empty (cite : Cite) (s : StatCite) (w : World)
    (body : List LedgerEntry)
    (hs : cite.stat = some s) (hv : s.volume ≤ 64)
    (hl : w.ledger s.volume = some body)
    (hm : ledger_matches s.volume s.page body = []) :
    explode cite w = Except.ok [] := by
  simp [explode, hs, hv, get_from_legisworks, hl, explode_candidates, hm]

/-- Witness for `c1_no_match_empty` at the counterexample input. -/
theorem c1_no_match_empty_witness :
    explode c1_cex_cite c1_cex_world = Except.ok [] :=
  c1_no_match_empty c1_cex_cite { volume := 43, page := 7 } c1_cex_world []
    (by decide) (by decide) (by decide) (by decide)

/-- Claim C2 (failing input): a US Code citation with a House OLRC html link
in a world where the existence-check fetch fails with a network error, so
node-request passes no `response` object. -/
def c2_house_link : LinkDescriptor :=
  { source := { name := "United States House of Representatives",
                abbreviation := "House",
                link := "https://uscode.house.gov",
                authoritative := true },
    html := some "https://uscode.house.gov/view.xhtml" }

/-- The C2 failing `usc` sub-citation. -/
def c2_usc : UscCite := { links := some { house := some c2_house_link } }

/-- The C2 failing citation. -/
def c2_cite : Cite := { type := "usc", usc := some c2_usc }

/-- Claim C2 is violated by `fetchers.usc`: on a network failure the fetcher
dereferences the undefined `response` object (`response.statusCode`) and
raises instead of contributing an empty result, and the exception prevents
the orchestrator from aggregating anything at all. -/
theorem c2_usc_network_error_raises :
    (fetchers_usc c2_usc c2_cite {}).toOption = none ∧
    (add_parallel_citations c2_cite {} {}).toOption = none := by
  constructor <;> decide

/-- Claim C3: an entry is selected by the ledger page/span query exactly when
its volume equals the queried volume and either its start page equals the
queried page or `npages` is present and the queried page lies in the
half-open interval from the start page of length `npages`. -/
theorem c3_ledger_match_spec (volume page : Nat) (body : List LedgerEntry)
    (e : LedgerEntry) :
    e ∈ ledger_matches volume page body ↔
      e ∈ body ∧ e.volume = volume ∧
        (e.page = page ∨
          ∃ np, e.npages = some np ∧ e.page ≤ page ∧ page < e.page + np) := by
  simp only [ledger_matches, List.mem_filter, and_assoc]
  refine and_congr_right fun _ => ?_
  cases hnp : e.npages with
  | none =>
    simp [ledger_match, hnp, Bool.and_eq_true, Bool.or_eq_true, decide_eq_true_eq]
  | some np =>
    simp [ledger_match, hnp, Bool.and_eq_true, Bool.or_eq_true, decide_eq_true_eq]
    omega

/-- A ten-page ledger entry starting at page 3 of volume 43, used to
instantiate the ledger-match characterization. -/
def c3_entry : LedgerEntry := { volume := 43, page := 3, npages := some 10 }

/-- Witness for `c3_ledger_match_spec` at a concrete span query: page 7 of a
ten-page entry starting at page 3 of volume 43. -/
theorem c3_ledger_match_spec_witness :
    c3_entry ∈ ledger_matches 43 7 [c3_entry] ↔
      c3_entry ∈ [c3_entry] ∧ c3_entry.volume = 43 ∧
        (c3_entry.page = 7 ∨
          ∃ np, c3_entry.npages = some np ∧ c3_entry.page ≤ 7 ∧ 7 < c3_entry.page + np) :=
  c3_ledger_match_spec 43 7 [c3_entry] c3_entry

/-- Claim C8: the congress-to-volume table binds the key 75 twice; under
JavaScript object-literal semantics the later binding wins, so a congress-75
public-law lookup consults exactly ledger volumes 51 and 52: its result
depends on the world only through those two volumes (in particular it never
reads volume 50). -/
theorem c8_volume_map_congress75 :
    volume_map_entries.countP (fun kv => kv.1 == 75) = 2 ∧
    volume_map 75 = some [51, 52] ∧
    ∀ (cite : Cite) (law : LawCite) (w w' : World),
      cite.law = some law → law.congress = 75 →
      w.ledger 51 = w'.ledger 51 → w.ledger 52 = w'.ledger 52 →
      get_from_legisworks_publaw cite w = get_from_legisworks_publaw cite w' := by
  refine ⟨by decide, by decide, ?_⟩
  intro cite law w w' hlaw hc h51 h52
  have hv : volume_map law.congress = some [51, 52] := by rw [hc]; decide
  have s51 : ∀ acc, publaw_volume_step law w acc 51 = publaw_volume_step law w' acc 51 := by
    intro acc; simp only [publaw_volume_step, h51]
  have s52 : ∀ acc, publaw_volume_step law w acc 52 = publaw_volume_step law w' acc 52 := by
    intro acc; simp only [publaw_volume_step, h52]
  simp only [get_from_legisworks_publaw, hlaw, hv, List.foldlM, s51, s52]

/-- The C8 witness citation: a congress-75 public law. -/
def c8_cite : Cite :=
  { type := "law", law := some { congress := 75, type := "public", number := 1 } }

/-- A world whose ledger holds (only) a volume-50 file. -/
def c8_world_a : World := { ledger := fun v => if v = 50 then some [] else none }

/-- A world with no ledger files at all. -/
def c8_world_b : World := { ledger := fun _ => none }

/-- Witness for `c8_volume_map_congress75`: two worlds that differ exactly in
volume 50 give the congress-75 resolver identical results. -/
theorem c8_volume_map_congress75_witness :
    get_from_legisworks_publaw c8_cite c8_world_a =
      get_from_legisworks_publaw c8_cite c8_world_b :=
  c8_volume_map_congress75.2.2 c8_cite
    { congress := 75, type := "public", number := 1 } c8_world_a c8_world_b
    rfl rfl rfl rfl

/-- Claim C10: inside the metadata-document resolver, an extension block
whose law reference's identity was already seen in this fetch is abandoned
wholesale (the `return` in the `forEach` callback): no citation is added and
no title is extracted from that block, even when the block also carries a
primary bill reference or a `shortTitle`/`searchTitle`. -/
theorem c10_duplicate_stops_block (ctype : String) (s : UsgpoState)
    (ext : ModsExtension) (l : ModsLawRef)
    (hty : ctype = "stat" ∨ ctype = "law")
    (hl : ext.law = some l) (hseen : mods_law_id l ∈ s.seen) :
    process_extension ctype s ext = s := by
  rw [process_extension, if_pos hty, hl]
  simp [hseen]

/-- The duplicated law reference of the C10 witness. -/
def c10_seen_law : ModsLawRef := { congress := 88, isPrivate := false, number := 4 }

/-- A resolver state that has already collected public law 88-4. -/
def c10_state : UsgpoState :=
  { cites := [create_parallel_cite_law 88 "public" 4],
    seen := [mods_law_id c10_seen_law], title := none }

/-- An extension block repeating law 88-4 while also carrying a primary bill
reference and a short title. -/
def c10_ext : ModsExtension :=
  { law := some c10_seen_law,
    bill := some { congress := 88, type := "HR", number := 9, priority := "primary" },
    shortTitle := some (ShortTitleElem.str "A Short Title") }

/-- Witness for `c10_duplicate_stops_block`: the duplicate law reference
suppresses both the bill citation and the title carried in the same block. -/
theorem c10_duplicate_stops_block_witness :
    process_extension "stat" c10_state c10_ext = c10_state :=
  c10_duplicate_stops_block "stat" c10_state c10_ext c10_seen_law
    (Or.inl rfl) rfl (by decide)

/-- The ledger entry of the spec's worked example: volume 43, page 1, fifty
pages, public law 67-1. -/
def c5_entry : LedgerEntry :=
  { volume := 43, page := 1, npages := some 50, type := "publaw",
    congress := 67, number := 1 }

/-- The queried citation of the worked example: 43 Stat. 1. -/
def c5_cite : Cite :=
  { type := "stat", stat := some { volume := 43, page := 1, id := CiteId.stat 43 1 } }

/-- A world whose volume-43 ledger holds exactly the example entry. -/
def c5_world : World :=
  { ledger := fun v => if v = 43 then some [c5_entry] else none }

/-- Claim C5: on the worked example, `explode` yields exactly one candidate,
its citation string is "43 Stat. 1", and it carries one nested parallel law
citation for public law 67-1 whose title matches the candidate's; and in
general every candidate built from a matched entry with congress ≥ 38 and
type "publaw" carries such a nested law citation. -/
theorem c5_example_and_publaw_parallel :
    ((explode c5_cite c5_world).toOption.map (fun res => res.map (fun c =>
        (c.citation,
         c.parallel_citations.map (fun cc =>
           (cc.type, cc.law.map (fun lw => (lw.congress, lw.type, lw.number)),
            cc.title == c.title)))))) =
      some [(some "43 Stat. 1", [("law", some (67, "public", 1), true)])] ∧
    ∀ (v p n : Nat) (e : LedgerEntry), 38 ≤ e.congress → e.type = "publaw" →
      ∃ cc, (legisworks_candidate v p n e).parallel_citations = [cc] ∧
        cc.type = "law" ∧
        cc.law.map (fun lw => (lw.congress, lw.type, lw.number)) =
          some (e.congress, "public", e.number) ∧
        cc.title = (legisworks_candidate v p n e).title := by
  constructor
  · rfl
  · intro v p n e hc ht
    simp only [legisworks_candidate, if_pos (And.intro hc ht)]
    exact ⟨_, rfl, rfl, by simp [create_parallel_cite_law], by simp⟩

/-- Witness for the universally quantified part of
`c5_example_and_publaw_parallel`, instantiated at the example entry. -/
theorem c5_example_and_publaw_parallel_witness :
    ∃ cc, (legisworks_candidate 43 1 1 c5_entry).parallel_citations = [cc] ∧
      cc.type = "law" ∧
      cc.law.map (fun lw => (lw.congress, lw.type, lw.number)) =
        some (67, "public", 1) ∧
      cc.title = (legisworks_candidate 43 1 1 c5_entry).title :=
  c5_example_and_publaw_parallel.2 43 1 1 c5_entry (by decide) (by decide)

/-- Claim C7: the case-search resolver.  With a CourtListener link and
configured credentials it never produces new citations; a transport/parse
failure, zero results, or two or more results leave the citation entirely
unchanged; exactly one result overwrites title, type name and canonical
citation string and replaces the search link with a direct landing link. -/
theorem c7_courtlistener (cite : Cite) (r : ReporterCite) (ld : LinkDescriptor)
    (env : Env) (creds : CLCredentials) (w : World)
    (hr : cite.reporter = some r) (hl : r.links.courtlistener = some ld)
    (he : env.courtlistener = some creds) :
    (get_from_courtlistener_search cite env w).1 = [] ∧
    ((w.cl_response = none ∨ w.cl_response = some [] ∨
        2 ≤ (w.cl_response.getD []).length) →
      (get_from_courtlistener_search cite env w).2 = cite) ∧
    (∀ c : CLCase, w.cl_response = some [c] →
      (get_from_courtlistener_search cite env w).2 =
        { cite with title := some c.caseName, type_name := some c.court,
                    citation := c.citation.head?,
                    reporter := some { r with links := { r.links with
                      courtlistener := some (cl_landing_link c) } } }) := by
  refine ⟨?_, ?_, ?_⟩
  · rcases hw : w.cl_response with _ | (_ | ⟨c, _ | ⟨c2, rest⟩⟩) <;>
      simp [get_from_courtlistener_search, hr, hl, he, hw]
  · intro hz
    rcases hw : w.cl_response with _ | (_ | ⟨c, _ | ⟨c2, rest⟩⟩) <;>
        simp [get_from_courtlistener_search, hr, hl, he, hw]
    rw [hw] at hz
    simp at hz
  · intro c hc
    simp [get_from_courtlistener_search, hr, hl, he, hc]

/-- The CourtListener search link of the C7 witness. -/
def c7_cl_link : LinkDescriptor :=
  { source := { name := "Court Listener", abbreviation := "CL",
                link := "https://www.courtlistener.com", authoritative := false },
    landing := some "https://www.courtlistener.com/?q=410+US+113" }

/-- The C7 witness reporter sub-citation, carrying a CourtListener search
link. -/
def c7_reporter : ReporterCite :=
  { links := { courtlistener := some c7_cl_link } }

/-- The C7 witness citation. -/
def c7_cite : Cite := { type := "reporter", reporter := some c7_reporter }

/-- The C7 witness environment, with CourtListener credentials configured. -/
def c7_env : Env := { courtlistener := some { username := "u", password := "p" } }

/-- The single search result of the C7 witness world. -/
def c7_case : CLCase :=
  { caseName := "Roe v. Wade", court := "Supreme Court of the United States",
    citation := ["410 U.S. 113"], absolute_url := "/opinion/108713/roe-v-wade/" }

/-- A world whose CourtListener search returns exactly one result. -/
def c7_world : World := { cl_response := some [c7_case] }

/-- Witness for `c7_courtlistener` on the unique-match path. -/
theorem c7_courtlistener_witness :
    (get_from_courtlistener_search c7_cite c7_env c7_world).1 = [] ∧
    (get_from_courtlistener_search c7_cite c7_env c7_world).2 =
      { c7_cite with title := some c7_case.caseName,
                     type_name := some c7_case.court,
                     citation := c7_case.citation.head?,
                     reporter := some { c7_reporter with links := { c7_reporter.links with
                       courtlistener := some (cl_landing_link c7_case) } } } :=
  ⟨(c7_courtlistener c7_cite c7_reporter c7_cl_link
      c7_env { username := "u", password := "p" } c7_world rfl rfl rfl).1,
   (c7_courtlistener c7_cite c7_reporter c7_cl_link
      c7_env { username := "u", password := "p" } c7_world rfl rfl rfl).2.2 c7_case rfl⟩

/-- Claim C4: for a ledger query by `explode` (ledger sorted by start page,
entries carrying nonempty citation notes), the result is the reversed list
of per-match candidates; a unique match carries no disambiguation; with two
or more matches every candidate's disambiguation is the (nonempty) citation
note of its entry; and in the reversed match order every entry starting on
the queried page precedes every entry that merely spans it. -/
theorem c4_disambiguation_and_order (cite : Cite) (s : StatCite) (w : World)
    (body : List LedgerEntry)
    (hs : cite.stat = some s) (hv : s.volume ≤ 64)
    (hl : w.ledger s.volume = some body)
    (hnote : ∀ e ∈ body, e.citation ≠ "")
    (hsorted : body.Pairwise (fun a b => a.page ≤ b.page)) :
    explode cite w = Except.ok (explode_candidates s.volume s.page body) ∧
    ((ledger_matches s.volume s.page body).length = 1 →
      ∀ c ∈ explode_candidates s.volume s.page body, c.disambiguation = none) ∧
    (2 ≤ (ledger_matches s.volume s.page body).length →
      ∀ c ∈ explode_candidates s.volume s.page body,
        ∃ e ∈ ledger_matches s.volume s.page body,
          c.disambiguation = some e.citation ∧ e.citation ≠ "") ∧
    (ledger_matches s.volume s.page body).reverse.Pairwise
      (fun a b => b.page = s.page → a.page = s.page) := by
  refine ⟨by simp [explode, hs, hv, get_from_legisworks, hl], ?_, ?_, ?_⟩
  · intro h1 c hc
    rw [explode_candidates, List.mem_reverse, List.mem_map] at hc
    obtain ⟨e, he, rfl⟩ := hc
    simp [legisworks_candidate, h1]
  · intro h2 c hc
    rw [explode_candidates, List.mem_reverse, List.mem_map] at hc
    obtain ⟨e, he, rfl⟩ := hc
    have hgt : 1 < (ledger_matches s.volume s.page body).length := by omega
    refine ⟨e, he, by simp [legisworks_candidate, hgt], ?_⟩
    rw [ledger_matches] at he
    exact hnote e (List.mem_of_mem_filter he)
  · have hm : (ledger_matches s.volume s.page body).Pairwise
        (fun a b => a.page ≤ b.page) := hsorted.filter _
    rw [List.pairwise_reverse]
    refine hm.imp_of_mem ?_
    intro a b _ hb hab hap
    have hb2 : ledger_match s.volume s.page b = true := by
      rw [ledger_matches] at hb
      exact (List.mem_filter.mp hb).2
    have hbp : b.page ≤ s.page := ledger_match_page_le hb2
    omega

/-- An entry of the C4 witness ledger spanning pages 1–10 of volume 43. -/
def c4_e1 : LedgerEntry :=
  { volume := 43, page := 1, npages := some 10, citation := "chapter 1" }

/-- An entry of the C4 witness ledger starting on page 5 of volume 43. -/
def c4_e2 : LedgerEntry := { volume := 43, page := 5, citation := "chapter 2" }

/-- The C4 witness ledger, in start-page order. -/
def c4_body : List LedgerEntry := [c4_e1, c4_e2]

/-- The C4 witness citation: 43 Stat. 5, matched both by the spanning entry
and by the entry starting on page 5. -/
def c4_cite : Cite := { type := "stat", stat := some { volume := 43, page := 5 } }

/-- The C4 witness world. -/
def c4_world : World := { ledger := fun v => if v = 43 then some c4_body else none }

/-- Witness for `c4_disambiguation_and_order` on a two-match query. -/
theorem c4_disambiguation_and_order_witness :
    explode c4_cite c4_world = Except.ok (explode_candidates 43 5 c4_body) ∧
    ((ledger_matches 43 5 c4_body).length = 1 →
      ∀ c ∈ explode_candidates 43 5 c4_body, c.disambiguation = none) ∧
    (2 ≤ (ledger_matches 43 5 c4_body).length →
      ∀ c ∈ explode_candidates 43 5 c4_body,
        ∃ e ∈ ledger_matches 43 5 c4_body,
          c.disambiguation = some e.citation ∧ e.citation ≠ "") ∧
    (ledger_matches 43 5 c4_body).reverse.Pairwise
      (fun a b => b.page = 5 → a.page = 5) :=
  c4_disambiguation_and_order c4_cite { volume := 43, page := 5 } c4_world c4_body
    rfl (by decide) rfl (by decide) (by decide)

/-- A resolver-produced citation is "a law citation for identity `i`" when it
is law-typed and its law sub-citation carries the identity `i`. -/
def lawQ (i : CiteId) (c : CiteBase) : Bool :=
  decide (c.type = "law") && decide (c.law.map (fun lw => lw.id) = some i)

/-- The bill-and-title tail of an extension block preserves the dedup
invariant for law identities: the number of law citations for `i` equals one
exactly when `i` has been seen. -/
theorem process_bill_count (cg : Nat) (t : String) (n : Nat)
    (s : UsgpoState) (ext : ModsExtension)
    (hinv : s.cites.countP (lawQ (CiteId.law cg t n)) =
      if CiteId.law cg t n ∈ s.seen then 1 else 0) :
    (process_bill_and_title s ext).cites.countP (lawQ (CiteId.law cg t n)) =
      if CiteId.law cg t n ∈ (process_bill_and_title s ext).seen then 1 else 0 := by
  cases hb : ext.bill with
  | none => simpa [process_bill_and_title, hb] using hinv
  | some b =>
    simp only [process_bill_and_title, hb]
    by_cases hp : b.priority = "primary"
    · rw [if_pos hp]
      by_cases hm : CiteId.us_bill b.congress b.type.toLower b.number ∈ s.seen
      · rw [if_pos hm]; exact hinv
      · rw [if_neg hm]
        simpa [List.countP_append, List.countP_cons, lawQ,
               create_parallel_cite_us_bill] using hinv
    · rw [if_neg hp]; simpa using hinv

/-- Processing one extension block preserves the dedup invariant for law
identities. -/
theorem process_extension_count (ctype : String) (cg : Nat) (t : String) (n : Nat)
    (s : UsgpoState) (ext : ModsExtension)
    (hinv : s.cites.countP (lawQ (CiteId.law cg t n)) =
      if CiteId.law cg t n ∈ s.seen then 1 else 0) :
    (process_extension ctype s ext).cites.countP (lawQ (CiteId.law cg t n)) =
      if CiteId.law cg t n ∈ (process_extension ctype s ext).seen then 1 else 0 := by
  by_cases hty : ctype = "stat" ∨ ctype = "law"
  case neg =>
    simp only [process_extension, if_neg hty]
    simpa using hinv
  cases hl : ext.law with
  | none =>
    simp only [process_extension, if_pos hty, hl]
    exact process_bill_count cg t n s ext hinv
  | some l =>
    simp only [process_extension, if_pos hty, hl]
    by_cases hm : mods_law_id l ∈ s.seen
    · rw [if_pos hm]; exact hinv
    · rw [if_neg hm]
      apply process_bill_count
      by_cases hid : mods_law_id l = CiteId.law cg t n
      · rw [← hid] at hinv ⊢
        have h0 : s.cites.countP (lawQ (mods_law_id l)) = 0 := by
          rw [hinv, if_neg hm]
        have hq : lawQ (mods_law_id l)
            (create_parallel_cite_law l.congress
              (if l.isPrivate then "private" else "public") l.number) = true := by
          simp [lawQ, create_parallel_cite_law, mods_law_id]
        simp [List.countP_append, List.countP_cons, hq, h0]
      · have hne : ¬(CiteId.law l.congress
            (if l.isPrivate then "private" else "public") l.number =
              CiteId.law cg t n) := hid
        have hq : lawQ (CiteId.law cg t n)
            (create_parallel_cite_law l.congress
              (if l.isPrivate then "private" else "public") l.number) = false := by
          simp [lawQ, create_parallel_cite_law, hne]
        have hne2 : ¬(CiteId.law cg t n = mods_law_id l) := fun h => hid h.symm
        simp [List.countP_append, List.countP_cons, hq, hne2]
        simpa using hinv

/-- Folding the extension blocks preserves the dedup invariant. -/
theorem usgpo_fold_count (ctype : String) (cg : Nat) (t : String) (n : Nat)
    (exts : List ModsExtension) (s : UsgpoState)
    (hinv : s.cites.countP (lawQ (CiteId.law cg t n)) =
      if CiteId.law cg t n ∈ s.seen then 1 else 0) :
    (exts.foldl (process_extension ctype) s).cites.countP (lawQ (CiteId.law cg t n)) =
      if CiteId.law cg t n ∈ (exts.foldl (process_extension ctype) s).seen
      then 1 else 0 := by
  induction exts generalizing s with
  | nil => simpa using hinv
  | cons e rest ih =>
    simp only [List.foldl_cons]
    exact ih _ (process_extension_count ctype cg t n s e hinv)

/-- The bill-and-title tail never forgets an already-seen identity. -/
theorem process_bill_seen_sub (s : UsgpoState) (ext : ModsExtension) :
    s.seen ⊆ (process_bill_and_title s ext).seen := by
  cases hb : ext.bill with
  | none => simp only [process_bill_and_title, hb]; exact fun x hx => hx
  | some b =>
    simp only [process_bill_and_title, hb]
    by_cases hp : b.priority = "primary"
    · rw [if_pos hp]
      by_cases hm : CiteId.us_bill b.congress b.type.toLower b.number ∈ s.seen
      · rw [if_pos hm]; exact fun x hx => hx
      · rw [if_neg hm]; exact fun x hx => List.mem_cons_of_mem _ hx
    · rw [if_neg hp]; exact fun x hx => hx

/-- Processing one extension block never forgets an already-seen identity. -/
theorem process_extension_seen_sub (ctype : String) (s : UsgpoState)
    (ext : ModsExtension) : s.seen ⊆ (process_extension ctype s ext).seen := by
  by_cases hty : ctype = "stat" ∨ ctype = "law"
  case neg => simp only [process_extension, if_neg hty]; exact fun x hx => hx
  cases hl : ext.law with
  | none =>
    simp only [process_extension, if_pos hty, hl]
    exact process_bill_seen_sub s ext
  | some l =>
    simp only [process_extension, if_pos hty, hl]
    by_cases hm : mods_law_id l ∈ s.seen
    · rw [if_pos hm]; exact fun x hx => hx
    · rw [if_neg hm]
      intro x hx
      exact process_bill_seen_sub _ ext (List.mem_cons_of_mem _ hx)

/-- The whole fold never forgets an already-seen identity. -/
theorem usgpo_fold_seen_sub (ctype : String) (exts : List ModsExtension)
    (s : UsgpoState) : s.seen ⊆ (exts.foldl (process_extension ctype) s).seen := by
  induction exts generalizing s with
  | nil => exact fun x hx => hx
  | cons e rest ih =>
    simp only [List.foldl_cons]
    exact fun x hx => ih _ (process_extension_seen_sub ctype s e hx)

/-- After processing an extension block carrying a law reference, that
reference's identity has been seen. -/
theorem process_extension_seen_law (ctype : String)
    (hty : ctype = "stat" ∨ ctype = "law") (s : UsgpoState) (ext : ModsExtension)
    (l : ModsLawRef) (hl : ext.law = some l) :
    mods_law_id l ∈ (process_extension ctype s ext).seen := by
  simp only [process_extension, if_pos hty, hl]
  by_cases hm : mods_law_id l ∈ s.seen
  · rw [if_pos hm]; exact hm
  · rw [if_neg hm]
    exact process_bill_seen_sub _ ext (List.mem_cons_self _ _)

/-- After the whole fold, the identity of every law reference occurring in
the document has been seen. -/
theorem usgpo_fold_seen_law (ctype : String) (hty : ctype = "stat" ∨ ctype = "law")
    (exts : List ModsExtension) (s : UsgpoState) (ext : ModsExtension)
    (l : ModsLawRef) (hmem : ext ∈ exts) (hl : ext.law = some l) :
    mods_law_id l ∈ (exts.foldl (process_extension ctype) s).seen := by
  induction exts generalizing s with
  | nil => cases hmem
  | cons e rest ih =>
    simp only [List.foldl_cons]
    rcases List.mem_cons.mp hmem with rfl | hmem2
    · exact usgpo_fold_seen_sub ctype rest _
        (process_extension_seen_law ctype hty s ext l hl)
    · exact ih _ hmem2

/-- Claim C6: a metadata document whose extension blocks contain two law
references with the same computed identity yields exactly one new law
citation for that identity in a single fetch. -/
theorem c6_mods_dedup (cite : Cite) (exts : List ModsExtension)
    (e1 e2 : ModsExtension) (l1 l2 : ModsLawRef)
    (hty : cite.type = "stat" ∨ cite.type = "law")
    (h1 : e1 ∈ exts) (_h2 : e2 ∈ exts)
    (hl1 : e1.law = some l1) (_hl2 : e2.law = some l2)
    (_hid : mods_law_id l1 = mods_law_id l2) :
    (get_from_usgpo_mods cite (some exts)).1.countP (lawQ (mods_law_id l1)) = 1 := by
  obtain ⟨cg, t, n, hshape⟩ : ∃ cg t n, mods_law_id l1 = CiteId.law cg t n :=
    ⟨l1.congress, _, l1.number, rfl⟩
  have hcount := usgpo_fold_count cite.type cg t n exts
    { cites := [], seen := [], title := cite.title } (by simp)
  have hseen := usgpo_fold_seen_law cite.type hty exts
    { cites := [], seen := [], title := cite.title } e1 l1 h1 hl1
  rw [hshape] at hseen
  simp only [get_from_usgpo_mods, hshape]
  rw [hcount, if_pos hseen]

/-- The repeated law reference of the C6 witness: public law 90-12. -/
def c6_law : ModsLawRef := { congress := 90, isPrivate := false, number := 12 }

/-- An extension block carrying the C6 law reference. -/
def c6_ext : ModsExtension := { law := some c6_law }

/-- The C6 witness document: two blocks with identical law references. -/
def c6_doc : List ModsExtension := [c6_ext, c6_ext]

/-- The C6 witness parent citation, a statute. -/
def c6_cite : Cite := { type := "stat", stat := some { volume := 81, page := 54 } }

/-- Witness for `c6_mods_dedup`: the duplicated reference yields exactly one
law citation. -/
theorem c6_mods_dedup_witness :
    (get_from_usgpo_mods c6_cite (some c6_doc)).1.countP (lawQ (mods_law_id c6_law)) = 1 :=
  c6_mods_dedup c6_cite c6_doc c6_ext c6_ext c6_law c6_law
    (Or.inl rfl) (by decide) (by decide) rfl rfl rfl

/-- Unpacking of `links_resolved`. -/
theorem links_resolved_spec {l : Links} (h : links_resolved l = true) :
    l.usgpo = none ∧ descr_resolved l.govtrack = true ∧
      descr_resolved l.house = true ∧ l.courtlistener = none ∧
      descr_resolved l.legisworks = true := by
  simp only [links_resolved, Bool.and_eq_true, Option.isNone_iff_eq_none] at h
  tauto

/-- A resolved `stat` key is a no-op for the orchestrator. -/
theorem apc_stat_resolved (cite : Cite) (w : World)
    (h : cite.stat.all (fun s => links_resolved s.links) = true) :
    apc_stat cite w = ([], cite) := by
  cases hs : cite.stat with
  | none => simp [apc_stat, hs]
  | some stat =>
    rw [hs] at h
    simp only [Option.all_some] at h
    simp [apc_stat, hs, fetchers_stat, (links_resolved_spec h).1]

/-- A resolved `law` key outside the congress range 60–81 is a no-op for the
orchestrator. -/
theorem apc_law_resolved (cite : Cite) (w : World)
    (hall : cite.law.all (fun s => links_resolved s.links) = true)
    (hrange : law_range_trigger cite = false) :
    apc_law cite w = Except.ok ([], cite) := by
  cases hlaw : cite.law with
  | none => simp [apc_law, hlaw]
  | some law =>
    rw [hlaw] at hall
    simp only [Option.all_some] at hall
    obtain ⟨husgpo, hgov, -, -, -⟩ := links_resolved_spec hall
    have hr : ¬(60 ≤ law.congress ∧ law.congress ≤ 81) := by
      rw [law_range_trigger, hlaw] at hrange
      simp only [Bool.and_eq_false_iff, decide_eq_false_iff_not] at hrange
      tauto
    simp only [apc_law, hlaw, fetchers_law, husgpo, if_neg hr]
    cases hgt : law.links.govtrack with
    | none => rfl
    | some gt =>
      rw [hgt] at hgov
      simp only [descr_resolved, Bool.and_eq_true, Option.isNone_iff_eq_none] at hgov
      simp [hgov.2]

/-- The `usc` key is a no-op when there is no OLRC link to ping, or when the
ping answers 200. -/
theorem apc_usc_resolved (cite : Cite) (w : World)
    (htrig : usc_house_trigger cite = false ∨ w.usc_status = some 200) :
    apc_usc cite w = Except.ok ([], cite) := by
  cases hu : cite.usc with
  | none => simp [apc_usc, hu]
  | some u =>
    simp only [apc_usc, hu]
    cases hlk : u.links with
    | none => simp [fetchers_usc, hlk]
    | some links =>
      cases hh : links.house with
      | none => simp [fetchers_usc, hlk, hh]
      | some house =>
        cases hhtml : house.html with
        | none => simp [fetchers_usc, hlk, hh, hhtml]
        | some html =>
          have h200 : w.usc_status = some 200 := by
            rcases htrig with htrig | htrig
            · exfalso
              simp [usc_house_trigger, hu, hlk, hh, hhtml] at htrig
            · exact htrig
          simp [fetchers_usc, hlk, hh, hhtml, h200]

/-- A resolved `cfr` key is a no-op for the orchestrator. -/
theorem apc_cfr_resolved (cite : Cite) (w : World)
    (h : cite.cfr.all (fun s => links_resolved s.links) = true) :
    apc_cfr cite w = ([], cite) := by
  cases hc : cite.cfr with
  | none => simp [apc_cfr, hc]
  | some cfr =>
    rw [hc] at h
    simp only [Option.all_some] at h
    simp [apc_cfr, hc, fetchers_mods_only, (links_resolved_spec h).1]

/-- A resolved `fedreg` key is a no-op for the orchestrator. -/
theorem apc_fedreg_resolved (cite : Cite) (w : World)
    (h : cite.fedreg.all (fun s => links_resolved s.links) = true) :
    apc_fedreg cite w = ([], cite) := by
  cases hc : cite.fedreg with
  | none => simp [apc_fedreg, hc]
  | some fedreg =>
    rw [hc] at h
    simp only [Option.all_some] at h
    simp [apc_fedreg, hc, fetchers_mods_only, (links_resolved_spec h).1]

/-- A resolved `reporter` key (no CourtListener search link left) is a no-op
for the orchestrator. -/
theorem apc_reporter_resolved (cite : Cite) (env : Env) (w : World)
    (h : cite.reporter.all (fun s => links_resolved s.links) = true) :
    apc_reporter cite env w = ([], cite) := by
  cases hr : cite.reporter with
  | none => simp [apc_reporter, hr]
  | some r =>
    rw [hr] at h
    simp only [Option.all_some] at h
    obtain ⟨-, -, -, hcl, -⟩ := links_resolved_spec h
    simp [apc_reporter, hr, get_from_courtlistener_search, hcl]

/-- Claim C9 (amended): for a fully resolved citation whose law sub-citation
(if any) lies outside the historical congress range 60–81 and whose OLRC
link (if any) validates with status 200, running the orchestrator twice
yields the empty new-citations list both times and never mutates the
citation. -/
theorem c9_idempotent_when_trigger_free (cite : Cite) (env : Env) (w : World)
    (hfr : fully_resolved cite = true)
    (hrange : law_range_trigger cite = false)
    (husc : usc_house_trigger cite = false ∨ w.usc_status = some 200) :
    add_parallel_citations cite env w = Except.ok ([], cite) ∧
    (add_parallel_citations cite env w).bind
      (fun r => add_parallel_citations r.2 env w) = Except.ok ([], cite) := by
  simp only [fully_resolved, Bool.and_eq_true] at hfr
  obtain ⟨⟨⟨⟨⟨⟨hstat, hlaw⟩, -⟩, hcfr⟩, hfed⟩, hrep⟩, -⟩ := hfr
  have h1 := apc_stat_resolved cite w hstat
  have h2 := apc_law_resolved cite w hlaw hrange
  have h3 := apc_usc_resolved cite w husc
  have h4 := apc_cfr_resolved cite w hcfr
  have h5 := apc_fedreg_resolved cite w hfed
  have h6 := apc_reporter_resolved cite env w hrep
  have key : add_parallel_citations cite env w = Except.ok ([], cite) := by
    simp [add_parallel_citations, bind, Except.bind, h1, h2, h3, h4, h5, h6]
  refine ⟨key, ?_⟩
  rw [key]
  simpa [Except.bind] using key

/-- The C9 witness citation: a fully resolved public law of congress 90,
carrying no links at all. -/
def c9w_cite : Cite :=
  { type := "law",
    law := some { congress := 90, type := "public", number := 5,
                  id := CiteId.law 90 "public" 5 } }

/-- Witness for `c9_idempotent_when_trigger_free`. -/
theorem c9_idempotent_when_trigger_free_witness :
    add_parallel_citations c9w_cite {} {} = Except.ok ([], c9w_cite) ∧
    (add_parallel_citations c9w_cite {} {}).bind
      (fun r => add_parallel_citations r.2 {} {}) = Except.ok ([], c9w_cite) :=
  c9_idempotent_when_trigger_free c9w_cite {} {}
    (by decide) (by decide) (Or.inl (by decide))

/-- The C9 counterexample ledger entry: public law 70-5 at 45 Stat. 100. -/
def c9_cex_entry : LedgerEntry :=
  { volume := 45, page := 100, type := "publaw", congress := 70, number := 5,
    title := some "An act", file := "x.pdf", citation := "Chap. 1" }

/-- The C9 counterexample citation: a fully resolved public law of congress
70 — inside the historical range — with no links of any kind. -/
def c9_cex_cite : Cite :=
  { type := "law",
    law := some { congress := 70, type := "public", number := 5,
                  id := CiteId.law 70 "public" 5 } }

/-- The C9 counterexample world: the volume-45 ledger holds the matching
entry. -/
def c9_cex_world : World :=
  { ledger := fun v => if v = 45 then some [c9_cex_entry] else none }

/-- Claim C9 is false as stated: this citation is fully resolved (all links
vacuously authoritative, no search/landing links, no metadata link), yet the
first orchestrator run already returns one new parallel citation and
overwrites the title, because the congress-range fallback consults the
ledger with no link involved at all. -/
theorem c9_counterexample :
    fully_resolved c9_cex_cite = true ∧
    (add_parallel_citations c9_cex_cite {} c9_cex_world).toOption.map
      (fun r => (r.1.length, r.2.title)) = some (1, some "An act") := by
  exact ⟨by decide, by rfl⟩

end UslawLink
